import Mathlib

/-!
Verification of the butlerG database-access core against its design spec.

The definitions below are a shallow embedding of the Python sources:
  * `src/butler_G/utils.py` — `ConnWithRecon` (resilient connection),
    `execute_query` (query executor);
  * `src/butler_G/db.py` — `Server.main` (database service loop),
    `Client` (database client);
  * `src/butler_G/log_expense.py` — `fetch_txns` (statement construction);
  * `src/butler_G/account_management.py` — `validate_id`, `check_sender`.
Effects on the physical database session are made observable through
explicit action logs and state records.
-/

namespace ButlerG

/-- psycopg2 transaction status constants (`psycopg2._ext.TRANSACTION_STATUS_*`):
IDLE, ACTIVE, INTRANS, INERROR, UNKNOWN. -/
inductive TxStatus where
  | idle
  | active
  | intrans
  | inerror
  | unknown
  deriving DecidableEq, Repr

/-- Opaque token standing for the `*args, **kwargs` captured by
`ConnWithRecon.__init__` and handed to `psycopg2.connect`. -/
structure Params where
  val : Nat
  deriving DecidableEq, Repr

/-- One physical database session (`psycopg2` connection object).
`gen` is a session identity: two sessions returned by distinct
`psycopg2.connect` calls have distinct `gen`, so session replacement is
observable. -/
structure PhysConn where
  closed : Bool
  txStatus : TxStatus
  params : Params
  gen : Nat
  deriving DecidableEq, Repr

/-- `psycopg2.connect(*args, **kwargs)`: a fresh open session in idle
transaction state, built from the given parameters. -/
def pgConnect (p : Params) (g : Nat) : PhysConn :=
  { closed := false, txStatus := TxStatus.idle, params := p, gen := g }

/-- Effect of `conn.close()` on the physical session. -/
def PhysConn.close (pc : PhysConn) : PhysConn :=
  { pc with closed := true }

/-- Effect of `conn.rollback()` on the physical session: the transaction
state returns to idle; the session itself is kept. -/
def PhysConn.rollback (pc : PhysConn) : PhysConn :=
  { pc with txStatus := TxStatus.idle }

/-- Effect of `conn.commit()` on the physical session: the transaction
state returns to idle; the session itself is kept. -/
def PhysConn.commit (pc : PhysConn) : PhysConn :=
  { pc with txStatus := TxStatus.idle }

/-- Operations issued to the physical session, recorded as an
observable log. -/
inductive PhysAct where
  | connect (p : Params)
  | close
  | rollback
  | commit
  | attrAccess
  deriving DecidableEq, Repr

/-- State of a `utils.ConnWithRecon` wrapper (utils.py:89-131): the
current physical session plus the construction parameters retained for
reconnection. `nextGen` feeds fresh session identities. -/
structure ConnWithRecon where
  conn : PhysConn
  initParams : Params
  nextGen : Nat
  deriving DecidableEq, Repr

/-- `ConnWithRecon.reconnect` (utils.py:129-131): replace the physical
session by `psycopg2.connect(*self.init_args, **self.init_kwargs)`. -/
def ConnWithRecon.reconnect (c : ConnWithRecon) : ConnWithRecon × List PhysAct :=
  ({ c with conn := pgConnect c.initParams c.nextGen, nextGen := c.nextGen + 1 },
   [PhysAct.connect c.initParams])

/-- The health-check prelude of `ConnWithRecon.__getattr__`
(utils.py:106-122), run before the attribute of `self.conn` is returned:
closed session → reconnect; unknown transaction status → close and
reconnect; any other non-idle status → rollback; idle → no action. -/
def ConnWithRecon.healthCheck (c : ConnWithRecon) : ConnWithRecon × List PhysAct :=
  if c.conn.closed = true then
    c.reconnect
  else if c.conn.txStatus = TxStatus.unknown then
    let c1 : ConnWithRecon := { c with conn := c.conn.close }
    let r := c1.reconnect
    (r.1, PhysAct.close :: r.2)
  else if c.conn.txStatus ≠ TxStatus.idle then
    ({ c with conn := c.conn.rollback }, [PhysAct.rollback])
  else
    (c, [])

/-- `ConnWithRecon.__getattr__` (utils.py:106-123): the health check,
then the attribute access on the (possibly replaced) physical session. -/
def ConnWithRecon.getattrOp (c : ConnWithRecon) : ConnWithRecon × List PhysAct :=
  let r := c.healthCheck
  (r.1, r.2 ++ [PhysAct.attrAccess])

/-- `ConnWithRecon.commit` (utils.py:125-127): `return self.conn.commit()`.
Defined as a first-class method on the wrapper, it does not go through
`__getattr__`: the physical commit is issued directly. -/
def ConnWithRecon.commit (c : ConnWithRecon) : ConnWithRecon × List PhysAct :=
  ({ c with conn := c.conn.commit }, [PhysAct.commit])

/-- The spec reading of claim C7 for `commit`: run the health check
first, then issue the physical commit. Stated from the spec words for
comparison with `ConnWithRecon.commit`. -/
def commitWithHealthCheck (c : ConnWithRecon) : ConnWithRecon × List PhysAct :=
  let r := c.healthCheck
  ({ r.1 with conn := r.1.conn.commit }, r.2 ++ [PhysAct.commit])

/-- Claim C1: on every attribute acquisition exactly one of the four
health-check branches runs: closed session → reconnect from the original
construction parameters; unknown status → close, then reconnect from the
original parameters; any other non-idle status → a single rollback with
the physical session kept; idle → no physical action and no change. -/
theorem healthCheck_branches (c : ConnWithRecon) :
    ((c.healthCheck).2 =
      if c.conn.closed = true then [PhysAct.connect c.initParams]
      else if c.conn.txStatus = TxStatus.unknown then
        [PhysAct.close, PhysAct.connect c.initParams]
      else if c.conn.txStatus = TxStatus.idle then []
      else [PhysAct.rollback]) ∧
    ((c.healthCheck).1.conn =
      if c.conn.closed = true ∨ c.conn.txStatus = TxStatus.unknown then
        pgConnect c.initParams c.nextGen
      else if c.conn.txStatus = TxStatus.idle then c.conn
      else c.conn.rollback) ∧
    ((c.healthCheck).1.initParams = c.initParams) := by
  by_cases hclosed : c.conn.closed = true
  · simp [ConnWithRecon.healthCheck, ConnWithRecon.reconnect, hclosed]
  · by_cases hunk : c.conn.txStatus = TxStatus.unknown
    · simp [ConnWithRecon.healthCheck, ConnWithRecon.reconnect, hclosed, hunk]
    · by_cases hidle : c.conn.txStatus = TxStatus.idle
      · simp [ConnWithRecon.healthCheck, hclosed, hunk, hidle]
      · simp [ConnWithRecon.healthCheck, hclosed, hunk, hidle]

/-- A wrapper whose physical session is closed: the health check would
reconnect here, so it separates `commit` from the health-checked path. -/
def connClosedEx : ConnWithRecon :=
  { conn := { closed := true, txStatus := TxStatus.idle, params := { val := 0 }, gen := 0 },
    initParams := { val := 0 }, nextGen := 1 }

/-- Claim C7, counterexample: on a closed session, `commit` issues the
physical commit with no health check (no reconnect happens), differing
from the health-check-first behaviour the claim asserts. -/
theorem commit_bypasses_healthCheck_cex :
    ConnWithRecon.commit connClosedEx ≠ commitWithHealthCheck connClosedEx ∧
    (ConnWithRecon.commit connClosedEx).2 = [PhysAct.commit] ∧
    (commitWithHealthCheck connClosedEx).2 =
      [PhysAct.connect { val := 0 }, PhysAct.commit] := by
  refine ⟨?_, rfl, rfl⟩
  decide

/-- Claim C7, amended: operations reached through dynamic attribute
delegation always run the health check before the physical attribute
access, but `commit()` is a first-class method that issues the physical
commit directly: it performs no health-check action and never replaces
the physical session. -/
theorem getattr_healthChecks_commit_direct (c : ConnWithRecon) :
    ConnWithRecon.getattrOp c =
      ((c.healthCheck).1, (c.healthCheck).2 ++ [PhysAct.attrAccess]) ∧
    ConnWithRecon.commit c = ({ c with conn := c.conn.commit }, [PhysAct.commit]) ∧
    (ConnWithRecon.commit c).1.conn.gen = c.conn.gen := by
  exact ⟨rfl, rfl, rfl⟩

/-! ### Database Service (db.py `Server.main`) and Query Executor -/

/-- Scalar values carried in result rows. -/
inductive Value where
  | int (i : Int)
  | str (s : String)
  | null
  deriving DecidableEq, Repr

/-- One result row: an ordered sequence of scalar values. -/
abbrev Row := List Value

/-- Outcome of one execution attempt of the body of the inner `try`
block in `Server.main` (db.py:50-59): the statement runs and its rows
are available, or psycopg2 raises. `connErr` is
`psycopg2.OperationalError` (connectivity); `stmtErr` is any other
psycopg2 error (the database rejected the statement). -/
inductive ExecResult where
  | rows (rs : List Row)
  | stmtErr
  | connErr
  deriving DecidableEq, Repr

/-- Error raised out of the query executor. -/
inductive ExecError where
  | stmtErr
  | connErr
  deriving DecidableEq, Repr

/-- The request message assembled by `Client.send_query` and read by
`Server.main` (db.py:122-127 and 51-58). -/
structure Request where
  query : String
  queryData : Option (List (String × Value))
  commit : Bool
  fetch : Bool
  deriving DecidableEq, Repr

/-- The transaction call issued on the connection after a successful
execution: `conn.commit()` when the commit flag is set, else
`conn.rollback()` (db.py:55-58). -/
inductive TxnAction where
  | commit
  | rollback
  deriving DecidableEq, Repr

/-- Result of running the inner `while True` retry loop of `Server.main`
(db.py:49-67) with a given amount of fuel. `reply p t k` means the loop
broke out with payload `p` after transaction action `t` and `k`
reconnects; `raised k` means a non-`OperationalError` escaped the loop
after `k` reconnects; `retrying k` means the fuel ran out while the loop
was still reconnecting. -/
inductive LoopResult where
  | reply (payload : Option (List Row)) (txn : TxnAction) (reconnects : Nat)
  | raised (reconnects : Nat)
  | retrying (reconnects : Nat)
  deriving DecidableEq, Repr

/-- The inner retry loop of `Server.main` (db.py:49-67). `beh k` is the
outcome of the execution attempt made after `k` reconnects. On `rows`,
the loop fetches if requested, commits or rolls back, and breaks; on a
statement error the exception escapes the loop (only
`psycopg2.OperationalError` is caught); on a connectivity error the
service reconnects and retries. The loop has no retry bound in the
source, so it is given explicit fuel here. -/
def innerLoop (beh : Nat → ExecResult) (req : Request) :
    Nat → Nat → LoopResult
  | 0, k => LoopResult.retrying k
  | Nat.succ fuel, k =>
    match beh k with
    | ExecResult.rows rs =>
        LoopResult.reply (if req.fetch then some rs else none)
          (if req.commit then TxnAction.commit else TxnAction.rollback) k
    | ExecResult.stmtErr => LoopResult.raised k
    | ExecResult.connErr => innerLoop beh req fuel (k + 1)

/-- Fate of one request round of `Server.main` (db.py:43-74). The outer
`try` catches only `KeyboardInterrupt` and `SystemExit`, so an exception
raised out of the inner loop propagates out of `main`: the service exits
and `server.send_pyobj` never runs for this request. -/
inductive ServerFate where
  | replied (payload : Option (List Row)) (txn : TxnAction) (reconnects : Nat)
  | exitedNoReply (reconnects : Nat)
  | stillRetrying (reconnects : Nat)
  deriving DecidableEq, Repr

/-- One request round of `Server.main`: run the inner retry loop, then
either send the result (db.py:70) or let the exception escape `main`. -/
def serveRequest (beh : Nat → ExecResult) (req : Request) (fuel : Nat) : ServerFate :=
  match innerLoop beh req fuel 0 with
  | LoopResult.reply p t k => ServerFate.replied p t k
  | LoopResult.raised k => ServerFate.exitedNoReply k
  | LoopResult.retrying k => ServerFate.stillRetrying k

/-- `Client.send_query` (db.py:104-129): build the request message, send
it over the REQ socket, and block on `recv_pyobj`. The pyobj transport
(pickle over zmq) is modelled as lossless: the client receives exactly
the object the server sent. `none` means no reply ever arrives and the
client blocks forever. -/
def send_query (beh : Nat → ExecResult) (query : String)
    (queryData : Option (List (String × Value))) (commit fetch : Bool)
    (fuel : Nat) : Option (Option (List Row)) :=
  match serveRequest beh
      { query := query, queryData := queryData, commit := commit, fetch := fetch }
      fuel with
  | ServerFate.replied p _ _ => some p
  | ServerFate.exitedNoReply _ => none
  | ServerFate.stillRetrying _ => none

/-- `utils.execute_query` (utils.py:73-86): a single execution attempt
with no retry logic of its own; `res` is the outcome of
`cursor.execute` plus fetch, and any error propagates to the caller. -/
def execute_query (res : ExecResult) (fetch : Bool) :
    Except ExecError (Option (List Row)) :=
  match res with
  | ExecResult.rows rs => Except.ok (if fetch then some rs else none)
  | ExecResult.stmtErr => Except.error ExecError.stmtErr
  | ExecResult.connErr => Except.error ExecError.connErr

/-- Persistent versus pending (uncommitted) database state; `commit`
makes the pending state durable, `rollback` discards it. -/
structure DBState (α : Type) where
  persisted : α
  pending : α
  deriving DecidableEq, Repr

/-- Effect of the transaction action on the database state. -/
def applyTxn {α : Type} : TxnAction → DBState α → DBState α
  | TxnAction.commit, s => { persisted := s.pending, pending := s.pending }
  | TxnAction.rollback, s => { persisted := s.persisted, pending := s.persisted }

/-- Core lemma on the retry loop: if the `n` attempts after attempt `k`
all fail with connectivity errors and attempt `k + n` succeeds with rows
`rs`, the loop replies with the fetched payload after exactly `k + n`
total reconnects. -/
theorem innerLoop_of_leading_connErr (beh : Nat → ExecResult) (req : Request)
    (rs : List Row) :
    ∀ (n fuel k : Nat), (∀ i, i < n → beh (k + i) = ExecResult.connErr) →
      beh (k + n) = ExecResult.rows rs → n < fuel →
      innerLoop beh req fuel k =
        LoopResult.reply (if req.fetch then some rs else none)
          (if req.commit then TxnAction.commit else TxnAction.rollback) (k + n) := by
  intro n
  induction n with
  | zero =>
      intro fuel k _ hn hfuel
      match fuel, hfuel with
      | Nat.succ fuel, _ =>
        simp only [innerLoop]
        rw [show k + 0 = k from rfl] at hn
        rw [hn]
        rfl
  | succ n ih =>
      intro fuel k hpre hn hfuel
      match fuel, hfuel with
      | Nat.succ fuel, hfuel =>
        have hk : beh k = ExecResult.connErr := by
          have := hpre 0 (Nat.succ_pos n)
          simpa using this
        simp only [innerLoop, hk]
        have hpre1 : ∀ i, i < n → beh (k + 1 + i) = ExecResult.connErr := by
          intro i hi
          have := hpre (i + 1) (by omega)
          have harith : k + (i + 1) = k + 1 + i := by omega
          rwa [harith] at this
        have hn1 : beh (k + 1 + n) = ExecResult.rows rs := by
          have harith : k + (n + 1) = k + 1 + n := by omega
          rwa [harith] at hn
        have := ih fuel (k + 1) hpre1 hn1 (by omega)
        rw [this]
        have harith : k + 1 + n = k + (n + 1) := by omega
        rw [harith]

/-- Inversion on the retry loop: whenever it replies, the transaction
action is determined by the request's commit flag. -/
theorem innerLoop_reply_txn (beh : Nat → ExecResult) (req : Request) :
    ∀ (fuel k : Nat) (p : Option (List Row)) (t : TxnAction) (n : Nat),
      innerLoop beh req fuel k = LoopResult.reply p t n →
      t = (if req.commit then TxnAction.commit else TxnAction.rollback) := by
  intro fuel
  induction fuel with
  | zero => intro k p t n h; exact absurd h (by simp [innerLoop])
  | succ fuel ih =>
      intro k p t n h
      simp only [innerLoop] at h
      cases hb : beh k with
      | rows rs => rw [hb] at h; exact (LoopResult.reply.injEq _ _ _ _ _ _).mp h |>.2.1.symm
      | stmtErr => rw [hb] at h; exact absurd h (by simp)
      | connErr => rw [hb] at h; exact ih (k + 1) p t n h

/-- A behaviour whose first two attempts fail with connectivity errors
and whose third attempt succeeds. -/
def behTwoConnErr : Nat → ExecResult := fun k =>
  if k < 2 then ExecResult.connErr else ExecResult.rows [[Value.int 1]]

/-- A behaviour whose first attempt fails with a connectivity error and
whose every later attempt succeeds. -/
def behOneConnErr : Nat → ExecResult := fun k =>
  if k = 0 then ExecResult.connErr else ExecResult.rows [[Value.int 7]]

/-- A behaviour for which the database rejects the statement on every
attempt (e.g. the statement text is invalid SQL). -/
def behStmtErr : Nat → ExecResult := fun _ => ExecResult.stmtErr

/-- A behaviour whose every attempt succeeds with no rows. -/
def behOk : Nat → ExecResult := fun _ => ExecResult.rows []

/-- A fetch request with a valid statement. -/
def reqFetch : Request :=
  { query := "SELECT 1;", queryData := none, commit := false, fetch := true }

/-- A request whose statement is invalid SQL, so the database rejects it
with a statement error. -/
def reqBadSql : Request :=
  { query := "SELEC 1;", queryData := none, commit := false, fetch := true }

/-- A non-fetch, non-commit request. -/
def reqNoCommit : Request :=
  { query := "INSERT INTO spend_log VALUES (1);", queryData := none,
    commit := false, fetch := false }

/-- Claim C3, counterexample: after the first retry also fails with a
connectivity error, the loop does not propagate a connectivity error and
does not terminate the retrying: it reconnects a second time and returns
the success of the third attempt, with two reconnects, not one. -/
theorem connErr_retry_twice_cex :
    innerLoop behTwoConnErr reqFetch 5 0 =
      LoopResult.reply (some [[Value.int 1]]) TxnAction.rollback 2 ∧
    serveRequest behTwoConnErr reqFetch 5 =
      ServerFate.replied (some [[Value.int 1]]) TxnAction.rollback 2 := by
  exact ⟨rfl, rfl⟩

/-- Claim C3, amended: on connectivity errors the service reconnects and
re-executes the same statement repeatedly, with no bound: if the first
`n` attempts fail with connectivity errors and attempt `n` succeeds, the
successful result is returned after exactly `n` reconnects (one failure
followed by success gives exactly one reconnect); a connectivity failure
of a retry leads to a further reconnect, never to propagation of a
connectivity error. -/
theorem innerLoop_retry_until_success (beh : Nat → ExecResult) (req : Request)
    (rs : List Row) (n fuel : Nat)
    (hpre : ∀ i, i < n → beh i = ExecResult.connErr)
    (hn : beh n = ExecResult.rows rs) (hfuel : n < fuel) :
    innerLoop beh req fuel 0 =
      LoopResult.reply (if req.fetch then some rs else none)
        (if req.commit then TxnAction.commit else TxnAction.rollback) n := by
  have h := innerLoop_of_leading_connErr beh req rs n fuel 0
    (by intro i hi; simpa using hpre i hi) (by simpa using hn) hfuel
  simpa using h

/-- Witness for `innerLoop_retry_until_success`: one connectivity
failure, then success, gives the result after exactly one reconnect. -/
theorem innerLoop_retry_until_success_witness :
    innerLoop behOneConnErr reqFetch 3 0 =
      LoopResult.reply (some [[Value.int 7]]) TxnAction.rollback 1 := by
  have h := innerLoop_retry_until_success behOneConnErr reqFetch [[Value.int 7]] 1 3
    (by intro i hi; have : i = 0 := Nat.lt_one_iff.mp hi; subst this; rfl)
    rfl (by omega)
  simpa [reqFetch] using h

/-- Claim C5: a statement error propagates out of the executor after
exactly one execution attempt, with zero reconnects and no retry: the
inner loop raises immediately, and `utils.execute_query` (which has no
retry logic at all) propagates the error to its caller. -/
theorem stmtErr_one_attempt (beh : Nat → ExecResult) (req : Request) (fuel : Nat)
    (hfuel : 0 < fuel) (h0 : beh 0 = ExecResult.stmtErr) :
    innerLoop beh req fuel 0 = LoopResult.raised 0 ∧
    execute_query ExecResult.stmtErr req.fetch = Except.error ExecError.stmtErr := by
  constructor
  · match fuel, hfuel with
    | Nat.succ fuel, _ =>
      simp only [innerLoop]
      rw [h0]
  · rfl

/-- Witness for `stmtErr_one_attempt` at a concrete behaviour. -/
theorem stmtErr_one_attempt_witness :
    innerLoop behStmtErr reqFetch 4 0 = LoopResult.raised 0 ∧
    execute_query ExecResult.stmtErr reqFetch.fetch = Except.error ExecError.stmtErr :=
  stmtErr_one_attempt behStmtErr reqFetch 4 (by omega) rfl

/-- Claim C2 (code bug): on a request whose statement the database
rejects, the statement error is not caught by the inner loop (which
catches only `psycopg2.OperationalError`) nor by the outer `try` (which
catches only `KeyboardInterrupt` and `SystemExit`), so `Server.main`
exits without sending a reply, and the client's blocking `recv` never
returns. -/
theorem bad_statement_kills_service :
    serveRequest behStmtErr reqBadSql 1 = ServerFate.exitedNoReply 0 ∧
    send_query behStmtErr ("SELEC 1;") none false true 1 = none := by
  exact ⟨rfl, rfl⟩

/-- Claim C6: for every request that completes successfully (any number
of leading connectivity retries followed by a successful attempt), the
client's `send_query` returns exactly what the executor produced: the
exact ordered row sequence when the fetch flag was set, and `none`
otherwise. The pyobj transport is modelled as lossless. -/
theorem send_query_round_trip (beh : Nat → ExecResult) (q : String)
    (qd : Option (List (String × Value))) (c f : Bool) (rs : List Row)
    (n fuel : Nat) (hpre : ∀ i, i < n → beh i = ExecResult.connErr)
    (hn : beh n = ExecResult.rows rs) (hfuel : n < fuel) :
    send_query beh q qd c f fuel = some (if f then some rs else none) := by
  have h := innerLoop_of_leading_connErr beh
    { query := q, queryData := qd, commit := c, fetch := f } rs n fuel 0
    (by intro i hi; simpa using hpre i hi) (by simpa using hn) hfuel
  simp only [send_query, serveRequest]
  rw [h]

/-- Witness for `send_query_round_trip`: a fetch request served after
one reconnect returns exactly the fetched row. -/
theorem send_query_round_trip_witness :
    send_query behOneConnErr ("SELECT 1;") none false true 3 =
      some (some [[Value.int 7]]) := by
  have h := send_query_round_trip behOneConnErr ("SELECT 1;") none false true
    [[Value.int 7]] 1 3
    (by intro i hi; have : i = 0 := Nat.lt_one_iff.mp hi; subst this; rfl)
    rfl (by omega)
  simpa using h

/-- Claim C9: whenever the service replies to a request whose commit
flag is false, the transaction action it issued was a rollback, so the
persistent database state is unchanged by the request. -/
theorem commit_false_rolls_back (α : Type) (beh : Nat → ExecResult) (req : Request)
    (fuel n : Nat) (p : Option (List Row)) (t : TxnAction) (s : DBState α)
    (hrep : serveRequest beh req fuel = ServerFate.replied p t n)
    (hc : req.commit = false) :
    t = TxnAction.rollback ∧ (applyTxn t s).persisted = s.persisted := by
  have ht : t = (if req.commit then TxnAction.commit else TxnAction.rollback) := by
    simp only [serveRequest] at hrep
    cases hloop : innerLoop beh req fuel 0 with
    | reply p2 t2 k2 =>
        rw [hloop] at hrep
        have h2 := innerLoop_reply_txn beh req fuel 0 p2 t2 k2 hloop
        have : t2 = t := by
          have := (ServerFate.replied.injEq _ _ _ _ _ _).mp hrep
          exact this.2.1
        rw [← this]
        exact h2
    | raised k2 => rw [hloop] at hrep; exact absurd hrep (by simp)
    | retrying k2 => rw [hloop] at hrep; exact absurd hrep (by simp)
  rw [hc] at ht
  simp only [if_neg Bool.false_ne_true] at ht
  subst ht
  exact ⟨rfl, rfl⟩

/-- Witness for `commit_false_rolls_back`: a concrete non-commit request
round, whose transaction action is a rollback leaving the persisted
state `0` untouched. -/
theorem commit_false_rolls_back_witness :
    TxnAction.rollback = TxnAction.rollback ∧
    (applyTxn TxnAction.rollback ({ persisted := 0, pending := 1 } : DBState Nat)).persisted =
      ({ persisted := 0, pending := 1 } : DBState Nat).persisted :=
  commit_false_rolls_back Nat behOk reqNoCommit 1 0 none TxnAction.rollback
    { persisted := 0, pending := 1 } rfl rfl

/-! ### Statement construction in log_expense.fetch_txns -/

/-- The single-quote character, written via its code point. -/
def sq : String := String.singleton (Char.ofNat 39)

/-- The statement text built by `log_expense.fetch_txns`
(log_expense.py:364-377): the template is filled by `str.format` with
`cat` interpolated into a `WHERE category LIKE` clause (when `cat` is
truthy) and `n_txn` interpolated into the `LIMIT` clause. Python
truthiness: `None` and the empty string are falsy. -/
def fetch_txns_query (cat : Option String) (n_txn : Nat) : String :=
  let catTruthy : Bool :=
    match cat with
    | none => false
    | some s => !s.isEmpty
  let catPart : String := if catTruthy then "" else "category, "
  let wherePart : String :=
    if catTruthy then "WHERE category LIKE " ++ sq ++ cat.getD "" ++ sq else ""
  "\n    SELECT tx_timestamp, amount, " ++ catPart ++ "notes\n    FROM spend_log\n    "
    ++ wherePart ++ "\n    ORDER BY tx_timestamp DESC\n    LIMIT "
    ++ toString n_txn ++ ";\n    "

/-- The request issued by `fetch_txns` (log_expense.py:379):
`utils.execute_query(_CONN, query, fetch=True)` — the formatted text is
the statement, and no bound parameters are passed. -/
def fetch_txns_request (cat : Option String) (n_txn : Nat) : Request :=
  { query := fetch_txns_query cat n_txn, queryData := none,
    commit := false, fetch := true }

/-- Claim C4 (code bug): `fetch_txns` interpolates the parameter value
`cat` (and `n_txn`) into the statement text itself and binds no
execution parameters, so the statement text is not independent of the
parameter values: two calls with different category values execute
different statement texts, with the value embedded between quotes. -/
theorem fetch_txns_interpolates :
    fetch_txns_query (some ("food")) 8 =
      "\n    SELECT tx_timestamp, amount, notes\n    FROM spend_log\n    WHERE category LIKE \x27food\x27\n    ORDER BY tx_timestamp DESC\n    LIMIT 8;\n    " ∧
    fetch_txns_query (some ("food")) 8 ≠ fetch_txns_query (some ("drink")) 8 ∧
    (fetch_txns_request (some ("food")) 8).queryData = none := by
  refine ⟨by decide, by decide, rfl⟩

/-! ### Sender gating in account_management -/

/-- The id column of the rows of the `users` table. -/
abbrev UsersTable := List Int

/-- `account_management.validate_id` (account_management.py:37-49):
semantics of `SELECT COUNT(id) > 0 FROM users WHERE id = %(id)s LIMIT 1`
against the `users` table: true exactly when some row carries this id. -/
def validate_id (users : UsersTable) (id : Int) : Bool :=
  0 < (users.filter (fun u => u = id)).length

/-- A chat user as seen in `update.effective_user`. -/
structure TgUser where
  id : Int
  name : String
  deriving DecidableEq, Repr

/-- An incoming update, reduced to the field `check_sender` reads. -/
structure TgUpdate where
  effectiveUser : TgUser
  deriving DecidableEq, Repr

/-- `telegram.ext.ConversationHandler.END`. -/
def CONVERSATION_END : Int := -1

/-- Observable side effects of one `check_sender` wrapper invocation. -/
structure WrapperEffects where
  funcCalled : Bool
  accessDeniedReplySent : Bool
  reportSent : Bool
  deriving DecidableEq, Repr

/-- The `wrapper` produced by `account_management.check_sender(report)`
around a handler `func` (account_management.py:73-99): if the sender's
id validates, call the handler; otherwise reply with the access-denied
message, optionally report to the developer chat, and return
`ConversationHandler.END`. -/
def check_sender (report : Bool) (users : UsersTable) (func : TgUpdate → Int)
    (u : TgUpdate) : Int × WrapperEffects :=
  if validate_id users u.effectiveUser.id = true then
    (func u,
     { funcCalled := true, accessDeniedReplySent := false, reportSent := false })
  else
    (CONVERSATION_END,
     { funcCalled := false, accessDeniedReplySent := true, reportSent := report })

/-- Claim C10: the wrapped handler runs exactly when `validate_id`
accepts the sender's id; otherwise the handler is never called, the
access-denied reply is sent, and the wrapper returns
`ConversationHandler.END`. -/
theorem check_sender_gates (report : Bool) (users : UsersTable)
    (func : TgUpdate → Int) (u : TgUpdate) :
    ((check_sender report users func u).2.funcCalled =
      validate_id users u.effectiveUser.id) ∧
    ((check_sender report users func u).2.accessDeniedReplySent =
      !(validate_id users u.effectiveUser.id)) ∧
    ((check_sender report users func u).1 =
      if validate_id users u.effectiveUser.id = true then func u
      else CONVERSATION_END) ∧
    ((check_sender report users func u).2.reportSent =
      (!(validate_id users u.effectiveUser.id) && report)) := by
  cases hv : validate_id users u.effectiveUser.id with
  | false => simp [check_sender, hv]
  | true => simp [check_sender, hv]

/-! ### Database Client transport teardown (db.py Client, core.py start_bot) -/

/-- State of a `db.Client`, reduced to how many times its transport
release (`close`: `self.client.close(); self.ctx.term()`) has run. -/
structure DbClient where
  closeCalls : Nat
  deriving DecidableEq, Repr

/-- A freshly constructed `db.Client` (db.py:84-94). -/
def DbClient.new : DbClient := { closeCalls := 0 }

/-- `db.Client.close` (db.py:99-102): close the socket and terminate the
context — one release of the transport resources, unguarded. -/
def DbClient.close (c : DbClient) : DbClient :=
  { c with closeCalls := c.closeCalls + 1 }

/-- `db.Client.__del__` (db.py:96-97): the finalizer delegates to
`close`, with no check whether `close` already ran. -/
def DbClient.del (c : DbClient) : DbClient := c.close

/-- `n` explicit `close()` calls in sequence. -/
def explicitCloses : Nat → DbClient → DbClient
  | 0, c => c
  | Nat.succ n, c => explicitCloses n c.close

/-- Claim C8, counterexample: in the normal shutdown path of
`core.start_bot` (core.py:269-270) each client's `close()` is called
explicitly, and the interpreter then finalizes the object, running
`__del__` and hence `close()` a second time: the transport release runs
twice, not exactly once. -/
theorem client_shutdown_double_release_cex :
    ((DbClient.new.close).del).closeCalls = 2 ∧
    ((DbClient.new.close).del).closeCalls ≠ 1 := by
  exact ⟨rfl, by decide⟩

/-- Claim C8, amended: the transport release runs once per explicit
`close()` call plus once more when the finalizer runs — after `n`
explicit closes and finalization it has run `n + 1` times, so the
observed shutdown path (one explicit close, then finalization) releases
twice, and nothing guards against the double release. -/
theorem client_release_count (n : Nat) :
    ((explicitCloses n DbClient.new).del).closeCalls = n + 1 := by
  have h : ∀ (m : Nat) (c : DbClient),
      (explicitCloses m c).closeCalls = c.closeCalls + m := by
    intro m
    induction m with
    | zero => intro c; rfl
    | succ m ih =>
        intro c
        simp only [explicitCloses]
        rw [ih c.close]
        simp only [DbClient.close]
        omega
  simp only [DbClient.del, DbClient.close]
  rw [h n DbClient.new]
  simp only [DbClient.new]
  omega

end ButlerG
